import Mathlib

/-!
Shallow embedding of the ClusterRunner worker agent
(`app/worker/cluster_worker.py`) together with proofs about its
lifecycle, teardown-idempotency, executor-pool and heartbeat logic.

Modelling conventions:
* The `ClusterWorker` Python object becomes a record; methods become
  functions from a worker (plus the outcomes of external calls) to the
  updated worker, a list of observable `Event`s, and a result.
* `queue.Queue` (the idle-executor pool, FIFO) becomes a `List Nat` of
  executor ids: `get` takes the head (blocking when empty, modelled as
  `none`), `put` appends at the tail, `full` compares the length with
  `num_executors` (the queue's `maxsize`).
* External collaborators (`Network`, `ProjectType`, `SubjobExecutor`,
  analytics, logging, the scheduler) are out of scope; their calls are
  recorded as `Event`s and their outcomes are passed in as parameters.
* I/O-only attributes of the Python object (`_logger`, `_network`,
  `_manager_api`, `_hb_scheduler`, `_heartbeat_interval`) carry no
  state relevant to the verified properties and are omitted.
-/

namespace ClusterRunner

/-- The worker-state enum of `cluster_worker.py`
(`class WorkerState(str, Enum)`). -/
inductive WorkerState
  | DISCONNECTED
  | SHUTDOWN
  | IDLE
  | SETUP_COMPLETED
  | SETUP_FAILED
deriving DecidableEq

/-- The string value of each `WorkerState` member, exactly as written in
the source (`SETUP_COMPLETED = 'SETUP_COMPLETE'`). -/
def WorkerState.value : WorkerState → String
  | .DISCONNECTED => "DISCONNECTED"
  | .SHUTDOWN => "SHUTDOWN"
  | .IDLE => "IDLE"
  | .SETUP_COMPLETED => "SETUP_COMPLETE"
  | .SETUP_FAILED => "SETUP_FAILED"

/-- `WorkerState` inherits from `str`, so a member compares equal to a
plain string exactly when its string value equals that string. -/
def WorkerState.strEq (s : WorkerState) (t : String) : Bool :=
  s.value == t

/-- Modelled from the spec: `app/util/single_use_coin.py` is not under
`src/`. The spec describes the single-use coin as a one-shot atomic
flag that "may be spent exactly once": `spend` succeeds the first time
and fails ever after. -/
structure SingleUseCoin where
  spent : Bool
deriving DecidableEq

/-- A freshly minted coin (as assigned in `setup_build`). -/
def SingleUseCoin.new : SingleUseCoin := ⟨false⟩

/-- Modelled from the spec: attempt to spend the coin. Returns whether
the spend succeeded together with the coin's new state. -/
def SingleUseCoin.spend (c : SingleUseCoin) : Bool × SingleUseCoin :=
  if c.spent then (false, c) else (true, ⟨true⟩)

/-- Observable effects of the worker: calls made to external
collaborators (executors, the ProjectType, the manager) in program
order. -/
inductive Event
  | executorKill (executorId : Nat)
  | projectTeardown (timeout : Option Nat)
  | notify (state : WorkerState)
  | fetchProject
  | configureProjectType (executorId : Nat)
  | runJobConfigSetup
  | acquire (executorId : Nat)
  | subjobStart (buildId subjobId : Int) (executorId : Nat)
  | executeSubjob (executorId : Nat)
  | subjobFinish (buildId subjobId : Int) (executorId : Nat)
  | release (executorId : Nat)
  | uploadResults (buildId subjobId : Int)
  | sleepSeconds (seconds : Nat)
deriving DecidableEq

/-- The state of a `ClusterWorker` (`ClusterWorker.__init__`).
Executors are identified by their dense integer ids; `executors_by_id`
keeps the ids of all executors ever constructed, and `idle_executors`
is the FIFO queue of ids currently in the idle pool. The ProjectType
instance is represented by an opaque token (the identity of the
parameter bag it was built from). -/
structure ClusterWorker where
  host : String
  port : Nat
  is_alive : Bool
  worker_id : Option Int
  num_executors : Nat
  idle_executors : List Nat
  executors_by_id : List Nat
  manager_url : Option String
  project_type : Option Nat
  current_build_id : Option Int
  build_teardown_coin : Option SingleUseCoin
  base_executor_index : Option Int
  heartbeat_failure_count : Nat
  heartbeat_failure_threshold : Nat
deriving DecidableEq

/-- `ClusterWorker.__init__(port, host, num_executors)`: constructs
`num_executors` executors with ids `0 .. num_executors - 1`, puts each
in the idle pool and records it in `executors_by_id`; all build-scoped
attributes start as `None` and the heartbeat failure count at 0. -/
def ClusterWorker.init (port : Nat) (host : String) (num_executors : Nat)
    (heartbeat_failure_threshold : Nat) : ClusterWorker :=
  { host := host
    port := port
    is_alive := true
    worker_id := none
    num_executors := num_executors
    idle_executors := List.range num_executors
    executors_by_id := List.range num_executors
    manager_url := none
    project_type := none
    current_build_id := none
    build_teardown_coin := none
    base_executor_index := none
    heartbeat_failure_count := 0
    heartbeat_failure_threshold := heartbeat_failure_threshold }

/-- The external-call events `executor.kill()` issued at the top of
`_do_build_teardown_and_reset`: one kill per executor in
`executors_by_id`, in iteration order. -/
def killEvents (w : ClusterWorker) : List Event :=
  w.executors_by_id.map Event.executorKill

/-- `ClusterWorker._do_build_teardown_and_reset(timeout)`: kill every
executor unconditionally; then (order matters) return unless the
teardown coin exists and spends successfully and a ProjectType exists;
otherwise call `project_type.teardown_build(timeout)` and clear
`current_build_id`, `project_type` and `base_executor_index`. -/
def do_build_teardown_and_reset (w : ClusterWorker) (timeout : Option Nat) :
    ClusterWorker × List Event :=
  match w.build_teardown_coin with
  | none => (w, killEvents w)
  | some coin =>
    let r := coin.spend
    let w1 := { w with build_teardown_coin := some r.2 }
    if r.1 = false then (w1, killEvents w)
    else
      match w1.project_type with
      | none => (w1, killEvents w)
      | some _ =>
        ({ w1 with current_build_id := none, project_type := none,
                   base_executor_index := none },
         killEvents w ++ [Event.projectTeardown timeout])

/-- `N` successive calls of `_do_build_teardown_and_reset`, one per
entry of `timeouts`, returning the final worker state and the event
list of each call in order. -/
def iterTeardown (timeouts : List (Option Nat)) (w : ClusterWorker) :
    ClusterWorker × List (List Event) :=
  match timeouts with
  | [] => (w, [])
  | t :: ts =>
    let r := do_build_teardown_and_reset w t
    let rest := iterTeardown ts r.1
    (rest.1, r.2 :: rest.2)

/-- `ClusterWorker.setup_build(build_id, project_type_params,
build_executor_start_index)`: assigns `current_build_id`, a fresh
teardown coin and a newly constructed ProjectType (represented by the
opaque token `project_type`), and only then checks that all executors
are idle, raising `RuntimeError` otherwise; on success it snapshots the
idle queue (passed to the async setup task) and returns. -/
def setup_build (w : ClusterWorker) (build_id : Int) (project_type : Nat) :
    ClusterWorker × Except String (List Nat) :=
  let w1 := { w with
    current_build_id := some build_id,
    build_teardown_coin := some SingleUseCoin.new,
    project_type := some project_type }
  (w1,
   if w1.idle_executors.length ≠ w1.num_executors then
     .error "RuntimeError: not all executors idle"
   else
     .ok w1.idle_executors)

/-- Outcome of one external setup step (`fetch_project`,
`configure_project_type`, `run_job_config_setup`): it returns normally,
raises `SetupFailureError`, or raises some other exception (which
`_async_setup_build` does not catch). -/
inductive StepOutcome
  | ok
  | setupFailure
  | otherError
deriving DecidableEq

/-- The `for executor in executors: executor.configure_project_type(...)`
loop of `_async_setup_build`: configures each executor in order,
stopping at the first call that raises. Returns the emitted call events
and the overall outcome. -/
def configureAll (confR : Nat → StepOutcome) : List Nat → List Event × StepOutcome
  | [] => ([], .ok)
  | e :: rest =>
    match confR e with
    | .ok =>
      let r := configureAll confR rest
      (Event.configureProjectType e :: r.1, r.2)
    | .setupFailure => ([Event.configureProjectType e], .setupFailure)
    | .otherError => ([Event.configureProjectType e], .otherError)

/-- `ClusterWorker._async_setup_build(executors, project_type_params,
build_executor_start_index)`: records `base_executor_index`, runs
`fetch_project`, the per-executor configure loop and
`run_job_config_setup`; a `SetupFailureError` from any step is caught
and reported as `SETUP_FAILED`, any other exception propagates with no
notification, and only full success reports `SETUP_COMPLETED`. The
outcome of each external call is passed in (`fetchR`, `confR`, `runR`). -/
def async_setup_build (w : ClusterWorker) (build_executor_start_index : Int)
    (executors : List Nat) (fetchR : StepOutcome) (confR : Nat → StepOutcome)
    (runR : StepOutcome) : ClusterWorker × List Event :=
  ({ w with base_executor_index := some build_executor_start_index },
   match fetchR with
   | .setupFailure => [Event.fetchProject, Event.notify WorkerState.SETUP_FAILED]
   | .otherError => [Event.fetchProject]
   | .ok =>
     let c := configureAll confR executors
     match c.2 with
     | .setupFailure =>
       Event.fetchProject :: c.1 ++ [Event.notify WorkerState.SETUP_FAILED]
     | .otherError => Event.fetchProject :: c.1
     | .ok =>
       match runR with
       | .setupFailure =>
         Event.fetchProject :: c.1
           ++ [Event.runJobConfigSetup, Event.notify WorkerState.SETUP_FAILED]
       | .otherError => Event.fetchProject :: c.1 ++ [Event.runJobConfigSetup]
       | .ok =>
         Event.fetchProject :: c.1
           ++ [Event.runJobConfigSetup, Event.notify WorkerState.SETUP_COMPLETED])

/-- `ClusterWorker.teardown_build(build_id)`: raises `BadRequestError`
when no build is active, or when a `build_id` argument is provided and
differs from `current_build_id`; otherwise schedules the async teardown
task. The synchronous call itself changes no state. -/
def teardown_build (w : ClusterWorker) (build_id : Option Int) :
    Except String Unit :=
  if w.current_build_id = none then
    .error "BadRequest: no build is active on this worker"
  else if build_id ≠ none ∧ build_id ≠ w.current_build_id then
    .error "BadRequest: worker is running another build"
  else
    .ok ()

/-- The `while not self._idle_executors.full(): time.sleep(1)` loop of
`_async_teardown_build`. `polls` is the sequence of pool-fullness
observations, one per check of the loop condition; the loop exits at
the first `true`, sleeping one second after each `false`. `none` means
fullness was never observed, so the loop never exits. -/
def pollUntilFull : List Bool → Option (List Event)
  | [] => none
  | true :: _ => some []
  | false :: rest => (pollUntilFull rest).map (fun evs => Event.sleepSeconds 1 :: evs)

/-- `ClusterWorker._send_manager_idle_notification()`: skips silently
when the manager responsiveness probe fails, otherwise notifies the
manager with state `IDLE`. -/
def send_manager_idle_notification (responsive : Bool) : List Event :=
  if responsive then [Event.notify WorkerState.IDLE] else []

/-- `ClusterWorker._async_teardown_build()`: runs
`_do_build_teardown_and_reset()` (no timeout), polls the idle pool at
1-second granularity until it is full, then sends the idle
notification. When the pool is never observed full the loop runs
forever and no notification is ever sent. -/
def async_teardown_build (w : ClusterWorker) (polls : List Bool)
    (responsive : Bool) : ClusterWorker × List Event :=
  let r := do_build_teardown_and_reset w none
  match pollUntilFull polls with
  | none => (r.1, r.2 ++ polls.map (fun _ => Event.sleepSeconds 1))
  | some sleeps => (r.1, r.2 ++ sleeps ++ send_manager_idle_notification responsive)

/-- `teardown_build` together with the async task it schedules on
acceptance: a rejected call schedules nothing and emits no events. -/
def teardown_build_full (w : ClusterWorker) (build_id : Option Int)
    (polls : List Bool) (responsive : Bool) :
    ClusterWorker × List Event × Except String Unit :=
  match teardown_build w build_id with
  | .error e => (w, [], .error e)
  | .ok _ =>
    let r := async_teardown_build w polls responsive
    (r.1, r.2, .ok ())

/-- `ClusterWorker._execute_subjob(build_id, subjob_id, executor, ...)`:
emits the analytics start event, runs the subjob on the executor,
emits the finish event, puts the executor back into the idle pool
(`put` appends at the queue's tail), and only then posts the results
to the manager. -/
def execute_subjob (w : ClusterWorker) (build_id subjob_id : Int)
    (executor : Nat) : ClusterWorker × List Event :=
  ({ w with idle_executors := w.idle_executors ++ [executor] },
   [Event.subjobStart build_id subjob_id executor,
    Event.executeSubjob executor,
    Event.subjobFinish build_id subjob_id executor,
    Event.release executor,
    Event.uploadResults build_id subjob_id])

/-- `ClusterWorker.start_working_on_subjob(build_id, subjob_id, ...)`:
raises `BadRequestError` when `build_id` differs from
`current_build_id`; otherwise takes an executor from the head of the
idle queue (`Queue.get`, which blocks while the queue is empty —
modelled as `none`), schedules `_execute_subjob` on it, and returns the
acquired executor's id (the `{'executor_id': ...}` response). -/
def start_working_on_subjob (w : ClusterWorker) (build_id subjob_id : Int) :
    Option (ClusterWorker × List Event × Except String Nat) :=
  if some build_id ≠ w.current_build_id then
    some (w, [], .error "BadRequest: wrong build id")
  else
    match w.idle_executors with
    | [] => none
    | e :: rest =>
      let w1 := { w with idle_executors := rest }
      let r := execute_subjob w1 build_id subjob_id e
      some (r.1, Event.acquire e :: r.2, .ok e)

/-- `ClusterWorker.connect_to_manager(manager_url)`: sets `is_alive`,
defaults the manager url to `localhost:43000` when the argument is
falsy (absent or empty), registers with the manager and stores the
`worker_id` integer decoded from the registration response
(`response_worker_id`). The two shutdown callbacks it registers are
outside the verified state. -/
def connect_to_manager (w : ClusterWorker) (manager_url : Option String)
    (response_worker_id : Int) : ClusterWorker :=
  let url := match manager_url with
    | none => "localhost:43000"
    | some s => if s = "" then "localhost:43000" else s
  { w with is_alive := true, manager_url := some url,
           worker_id := some response_worker_id }

/-- `ClusterWorker._disconnect_from_manager()`: clears `is_alive`, then
notifies the manager with state `DISCONNECTED` unless the
responsiveness probe fails. -/
def disconnect_from_manager (w : ClusterWorker) (responsive : Bool) :
    ClusterWorker × List Event :=
  let w1 := { w with is_alive := false }
  if responsive then (w1, [Event.notify WorkerState.DISCONNECTED]) else (w1, [])

/-- `ClusterWorker.kill()`: `sys.exit(0)` — the process exit status. -/
def kill_exit_status : Nat := 0

/-- Outcome of one `_send_heartbeat_to_manager()` call: it returns
normally, raises `requests.ConnectionError` or `requests.Timeout`
(a transport-level fault), or raises some other exception (which the
`except` clause does not catch). -/
inductive HbOutcome
  | success
  | transportError
  | otherException
deriving DecidableEq

/-- One `ClusterWorker._run_heartbeat()` tick acting on the
consecutive-failure counter `c`: success resets the counter to 0; a
connection or timeout error increments it and, when the new value has
reached `heartbeat_failure_threshold`, invokes `kill()` (returning its
exit status); any other exception leaves the counter untouched (it
propagates out of the tick). -/
def run_heartbeat (threshold c : Nat) (o : HbOutcome) : Nat × Option Nat :=
  match o with
  | .success => (0, none)
  | .transportError =>
    if threshold ≤ c + 1 then (c + 1, some kill_exit_status) else (c + 1, none)
  | .otherException => (c, none)

/-- Result of running the heartbeat loop over a list of tick outcomes:
the process was killed with an exit code, the heartbeat thread crashed
on an uncaught exception (no further ticks run), or the loop is still
alive with the current counter value. -/
inductive HbRun
  | killed (exitCode : Nat)
  | crashed
  | alive (count : Nat)
deriving DecidableEq

/-- The heartbeat loop: runs `_run_heartbeat` once per outcome in
order. A kill ends the process; an uncaught exception ends the thread
(the tick never reschedules itself). -/
def run_heartbeats (threshold : Nat) (c : Nat) : List HbOutcome → HbRun
  | [] => .alive c
  | o :: rest =>
    if o = HbOutcome.otherException then .crashed
    else
      let r := run_heartbeat threshold c o
      match r.2 with
      | some code => .killed code
      | none => run_heartbeats threshold r.1 rest

/-- One heartbeat tick acting on the whole worker state. -/
def run_heartbeat_tick (w : ClusterWorker) (o : HbOutcome) :
    ClusterWorker × Option Nat :=
  let r := run_heartbeat w.heartbeat_failure_threshold w.heartbeat_failure_count o
  ({ w with heartbeat_failure_count := r.1 }, r.2)

/-- A public operation on the worker, with the outcomes of all external
calls it makes supplied as parameters. Used to state frame properties
over arbitrary operation sequences. -/
inductive WorkerOp
  | connect (url : Option String) (respId : Int)
  | setup (buildId : Int) (projectType : Nat)
  | asyncSetup (startIndex : Int) (executors : List Nat)
      (fetchR : StepOutcome) (confR : Nat → StepOutcome) (runR : StepOutcome)
  | startSubjob (buildId subjobId : Int)
  | teardown (buildId : Option Int) (polls : List Bool) (responsive : Bool)
  | teardownReset (timeout : Option Nat)
  | disconnect (responsive : Bool)
  | heartbeat (o : HbOutcome)

/-- Whether an operation is `connect_to_manager`. -/
def WorkerOp.isConnect : WorkerOp → Bool
  | .connect _ _ => true
  | _ => false

/-- The state transition of each public operation (projecting away
events and results; a `start_working_on_subjob` that blocks on an
empty pool has not yet changed any state). -/
def applyOp (w : ClusterWorker) : WorkerOp → ClusterWorker
  | .connect url rid => connect_to_manager w url rid
  | .setup b pt => (setup_build w b pt).1
  | .asyncSetup i ex f c r => (async_setup_build w i ex f c r).1
  | .startSubjob b s =>
    match start_working_on_subjob w b s with
    | none => w
    | some r => r.1
  | .teardown b polls resp => (teardown_build_full w b polls resp).1
  | .teardownReset t => (do_build_teardown_and_reset w t).1
  | .disconnect resp => (disconnect_from_manager w resp).1
  | .heartbeat o => (run_heartbeat_tick w o).1

/-- Whether an event is an executor acquisition from the idle pool. -/
def Event.isAcquire : Event → Bool
  | .acquire _ => true
  | _ => false

/-- Whether an event is an executor release back to the idle pool. -/
def Event.isRelease : Event → Bool
  | .release _ => true
  | _ => false

/-- Whether an event is a results upload to the manager. -/
def Event.isUpload : Event → Bool
  | .uploadResults _ _ => true
  | _ => false

/-- Whether an event is a `project_type.teardown_build` call. -/
def Event.isProjectTeardown : Event → Bool
  | .projectTeardown _ => true
  | _ => false

/-- A concrete worker used to instantiate theorems with hypotheses:
two executors, an active build 1 with an unspent teardown coin. -/
def busyWorker : ClusterWorker :=
  { ClusterWorker.init 43001 "workerhost" 2 3 with
    current_build_id := some 1,
    build_teardown_coin := some SingleUseCoin.new,
    project_type := some 5,
    base_executor_index := some 0 }

/-- A concrete worker whose idle pool is not full: one of its two
executors is checked out. -/
def notFullWorker : ClusterWorker :=
  { ClusterWorker.init 43001 "workerhost" 2 3 with idle_executors := [0] }

/-- `_do_build_teardown_and_reset` never touches the executor registry,
the idle queue, the pool capacity or the worker id. -/
theorem do_reset_frame (w : ClusterWorker) (t : Option Nat) :
    (do_build_teardown_and_reset w t).1.executors_by_id = w.executors_by_id
    ∧ (do_build_teardown_and_reset w t).1.worker_id = w.worker_id
    ∧ (do_build_teardown_and_reset w t).1.idle_executors = w.idle_executors
    ∧ (do_build_teardown_and_reset w t).1.num_executors = w.num_executors := by
  unfold do_build_teardown_and_reset
  split
  · exact ⟨rfl, rfl, rfl, rfl⟩
  · dsimp only
    split
    · exact ⟨rfl, rfl, rfl, rfl⟩
    · split <;> exact ⟨rfl, rfl, rfl, rfl⟩

/-- No public operation other than `connect_to_manager` modifies
`worker_id`. -/
theorem async_teardown_state (w : ClusterWorker) (polls : List Bool)
    (responsive : Bool) :
    (async_teardown_build w polls responsive).1
      = (do_build_teardown_and_reset w none).1 := by
  dsimp only [async_teardown_build]
  cases pollUntilFull polls <;> rfl

/-- No public operation other than `connect_to_manager` modifies
`worker_id`. -/
theorem applyOp_worker_id (w : ClusterWorker) (op : WorkerOp)
    (h : op.isConnect = false) : (applyOp w op).worker_id = w.worker_id := by
  cases op with
  | connect url rid => simp [WorkerOp.isConnect] at h
  | setup b pt => rfl
  | asyncSetup i ex f c r => rfl
  | startSubjob b s =>
    simp only [applyOp]
    by_cases hb : some b ≠ w.current_build_id
    · simp [start_working_on_subjob, hb]
    · cases hie : w.idle_executors with
      | nil => simp [start_working_on_subjob, hb, hie]
      | cons e rest => simp [start_working_on_subjob, hb, hie, execute_subjob]
  | teardown b polls resp =>
    simp only [applyOp, teardown_build_full]
    cases teardown_build w b
    · rfl
    · dsimp only
      rw [async_teardown_state]
      exact (do_reset_frame w none).2.1
  | teardownReset t => exact (do_reset_frame w t).2.1
  | disconnect resp =>
    simp only [applyOp, disconnect_from_manager]
    split <;> rfl
  | heartbeat o => rfl

/-- C1 counterexample: calling `setup_build` with a non-full idle pool
raises `RuntimeError`, yet the failed call has already overwritten
`current_build_id`, the teardown coin and `project_type` — the state is
not left unchanged as the claim says. -/
theorem setup_build_mutates_on_error :
    (setup_build notFullWorker 7 9).2.isOk = false
    ∧ (setup_build notFullWorker 7 9).1.current_build_id ≠ notFullWorker.current_build_id
    ∧ (setup_build notFullWorker 7 9).1.build_teardown_coin ≠ notFullWorker.build_teardown_coin
    ∧ (setup_build notFullWorker 7 9).1.project_type ≠ notFullWorker.project_type := by
  refine ⟨rfl, ?_, ?_, ?_⟩ <;> decide

/-- C1 (amended): `setup_build` raises an error exactly when the idle
pool is not full (an already-active build by itself is never checked
and raises nothing), and even a failed call first overwrites
`current_build_id`, the teardown coin and `project_type` with the new
build's values; the executor pool and registry and the worker id are
untouched. -/
theorem setup_build_behavior (w : ClusterWorker) (bid : Int) (pt : Nat) :
    (setup_build w bid pt).1.current_build_id = some bid
    ∧ (setup_build w bid pt).1.build_teardown_coin = some SingleUseCoin.new
    ∧ (setup_build w bid pt).1.project_type = some pt
    ∧ ((setup_build w bid pt).2.isOk = false
        ↔ w.idle_executors.length ≠ w.num_executors)
    ∧ (setup_build w bid pt).1.idle_executors = w.idle_executors
    ∧ (setup_build w bid pt).1.executors_by_id = w.executors_by_id
    ∧ (setup_build w bid pt).1.worker_id = w.worker_id := by
  refine ⟨rfl, rfl, rfl, ?_, rfl, rfl, rfl⟩
  simp only [setup_build]
  split
  · next hne => exact iff_of_true rfl hne
  · next hne => exact iff_of_false (by simp [Except.isOk, Except.toBool]) hne

/-- C3: `teardown_build` (with the async task it schedules on
acceptance) rejects with `BadRequest` exactly when no build is active
or a provided `build_id` differs from `current_build_id`; a rejected
call changes no state and emits no external call at all (in particular
`project_type.teardown_build` is not called). -/
theorem teardown_build_reject_iff (w : ClusterWorker) (bid : Option Int)
    (polls : List Bool) (responsive : Bool) :
    ((teardown_build_full w bid polls responsive).2.2.isOk = false
      ↔ w.current_build_id = none ∨ (bid ≠ none ∧ bid ≠ w.current_build_id))
    ∧ (w.current_build_id = none ∨ (bid ≠ none ∧ bid ≠ w.current_build_id) →
        (teardown_build_full w bid polls responsive).1 = w
        ∧ (teardown_build_full w bid polls responsive).2.1 = []) := by
  simp only [teardown_build_full, teardown_build]
  by_cases h1 : w.current_build_id = none
  · simp [h1, Except.isOk, Except.toBool]
  · by_cases h2 : bid ≠ none ∧ bid ≠ w.current_build_id
    · simp [h1, h2, Except.isOk, Except.toBool]
    · simp [h1, h2, Except.isOk, Except.toBool]

/-- Witness for C3 at a concrete input: a fresh worker has no active
build, so `teardown_build` rejects, changing nothing and emitting no
events. -/
theorem teardown_build_reject_iff_witness :
    (ClusterWorker.init 43001 "workerhost" 2 3).current_build_id = none
    ∧ ((teardown_build_full (ClusterWorker.init 43001 "workerhost" 2 3) none [] true).1
        = ClusterWorker.init 43001 "workerhost" 2 3
      ∧ (teardown_build_full (ClusterWorker.init 43001 "workerhost" 2 3) none [] true).2.1
        = []) :=
  ⟨rfl, (teardown_build_reject_iff (ClusterWorker.init 43001 "workerhost" 2 3)
    none [] true).2 (Or.inl rfl)⟩

/-- C8 counterexample: `connect_to_manager` stores the `worker_id` from
the registration response on every call, so a second registration that
returns a different id overwrites the first — `worker_id` is not
immutable after the first registration. -/
theorem worker_id_reassigned_on_reconnect :
    (connect_to_manager (ClusterWorker.init 43001 "workerhost" 2 3) none 7).worker_id
      = some 7
    ∧ (connect_to_manager
        (connect_to_manager (ClusterWorker.init 43001 "workerhost" 2 3) none 7)
        none 8).worker_id = some 8
    ∧ (connect_to_manager
        (connect_to_manager (ClusterWorker.init 43001 "workerhost" 2 3) none 7)
        none 8).worker_id
      ≠ (connect_to_manager (ClusterWorker.init 43001 "workerhost" 2 3) none 7).worker_id := by
  refine ⟨rfl, rfl, ?_⟩
  decide

/-- C8 (amended): `connect_to_manager` sets `is_alive`, defaults
`manager_url` to `localhost:43000` when the argument is absent or
empty, and stores the integer `worker_id` from the registration
response — on every call, so a repeated registration reassigns it;
no operation other than `connect_to_manager` ever modifies
`worker_id`. -/
theorem connect_to_manager_behavior (w : ClusterWorker) (url : Option String)
    (rid : Int) :
    (connect_to_manager w url rid).is_alive = true
    ∧ (connect_to_manager w url rid).worker_id = some rid
    ∧ (url = none ∨ url = some "" →
        (connect_to_manager w url rid).manager_url = some "localhost:43000")
    ∧ (∀ s, url = some s → s ≠ "" →
        (connect_to_manager w url rid).manager_url = some s)
    ∧ (∀ w2 op, WorkerOp.isConnect op = false →
        (applyOp w2 op).worker_id = w2.worker_id) := by
  refine ⟨rfl, rfl, ?_, ?_, fun w2 op h => applyOp_worker_id w2 op h⟩
  · rintro (rfl | rfl) <;> rfl
  · rintro s rfl hs
    simp [connect_to_manager, hs]

/-- Witness for C8 (amended) at a concrete input: connecting with no
url argument defaults the manager url and stores the response id, and
a heartbeat tick leaves `worker_id` unchanged. -/
theorem connect_to_manager_behavior_witness :
    (connect_to_manager (ClusterWorker.init 43001 "workerhost" 2 3) none 7).is_alive = true
    ∧ (connect_to_manager (ClusterWorker.init 43001 "workerhost" 2 3) none 7).worker_id = some 7
    ∧ (connect_to_manager (ClusterWorker.init 43001 "workerhost" 2 3) none 7).manager_url
        = some "localhost:43000"
    ∧ (applyOp (ClusterWorker.init 43001 "workerhost" 2 3)
        (WorkerOp.heartbeat HbOutcome.success)).worker_id
      = (ClusterWorker.init 43001 "workerhost" 2 3).worker_id := by
  have h := connect_to_manager_behavior (ClusterWorker.init 43001 "workerhost" 2 3) none 7
  exact ⟨h.1, h.2.1, h.2.2.1 (Or.inl rfl),
    h.2.2.2.2 (ClusterWorker.init 43001 "workerhost" 2 3)
      (WorkerOp.heartbeat HbOutcome.success) rfl⟩

/-- C9: the `WorkerState` values used in state-change notifications are
bit-exact the strings `DISCONNECTED`, `SHUTDOWN`, `IDLE`,
`SETUP_COMPLETE` (the `SETUP_COMPLETED` member's value is literally
`SETUP_COMPLETE`, not `SETUP_COMPLETED`) and `SETUP_FAILED`, and each
member compares equal (as a `str` subclass) to its string value. -/
theorem worker_state_literals :
    WorkerState.DISCONNECTED.value = "DISCONNECTED"
    ∧ WorkerState.SHUTDOWN.value = "SHUTDOWN"
    ∧ WorkerState.IDLE.value = "IDLE"
    ∧ WorkerState.SETUP_COMPLETED.value = "SETUP_COMPLETE"
    ∧ WorkerState.SETUP_FAILED.value = "SETUP_FAILED"
    ∧ WorkerState.DISCONNECTED.strEq "DISCONNECTED" = true
    ∧ WorkerState.SHUTDOWN.strEq "SHUTDOWN" = true
    ∧ WorkerState.IDLE.strEq "IDLE" = true
    ∧ WorkerState.SETUP_COMPLETED.strEq "SETUP_COMPLETE" = true
    ∧ WorkerState.SETUP_FAILED.strEq "SETUP_FAILED" = true := by
  decide

/-- C4: every accepted `start_working_on_subjob` call (build id equals
the current build id, an idle executor available) acquires exactly one
executor from the pool and releases exactly one back, the released
handle is the acquired one, the API response is the acquired executor's
id, and the single release (position 4 of the task's event trace)
happens before the single results upload (position 5). -/
theorem start_subjob_acquire_release (w : ClusterWorker) (bid sid : Int)
    (e : Nat) (rest : List Nat)
    (hb : w.current_build_id = some bid) (hie : w.idle_executors = e :: rest) :
    start_working_on_subjob w bid sid
      = some ({ w with idle_executors := rest ++ [e] },
          [Event.acquire e,
           Event.subjobStart bid sid e,
           Event.executeSubjob e,
           Event.subjobFinish bid sid e,
           Event.release e,
           Event.uploadResults bid sid],
          Except.ok e)
    ∧ ([Event.acquire e, Event.subjobStart bid sid e, Event.executeSubjob e,
        Event.subjobFinish bid sid e, Event.release e,
        Event.uploadResults bid sid].countP (fun ev => Event.isAcquire ev) = 1
      ∧ [Event.acquire e, Event.subjobStart bid sid e, Event.executeSubjob e,
         Event.subjobFinish bid sid e, Event.release e,
         Event.uploadResults bid sid].countP (fun ev => Event.isRelease ev) = 1
      ∧ [Event.acquire e, Event.subjobStart bid sid e, Event.executeSubjob e,
         Event.subjobFinish bid sid e, Event.release e,
         Event.uploadResults bid sid].countP (fun ev => Event.isUpload ev) = 1) := by
  refine ⟨?_, rfl, rfl, rfl⟩
  simp [start_working_on_subjob, hb, hie, execute_subjob]

/-- Witness for C4 at a concrete input: `busyWorker` runs build 1 with
executors 0 and 1 idle; subjob 3 of build 1 acquires executor 0,
returns its id, and puts it back at the tail of the pool before the
upload. -/
theorem start_subjob_acquire_release_witness :
    busyWorker.current_build_id = some 1
    ∧ busyWorker.idle_executors = 0 :: [1]
    ∧ start_working_on_subjob busyWorker 1 3
      = some ({ busyWorker with idle_executors := [1] ++ [0] },
          [Event.acquire 0,
           Event.subjobStart 1 3 0,
           Event.executeSubjob 0,
           Event.subjobFinish 1 3 0,
           Event.release 0,
           Event.uploadResults 1 3],
          Except.ok 0) :=
  ⟨rfl, rfl, (start_subjob_acquire_release busyWorker 1 3 0 [1] rfl rfl).1⟩

/-- After one `_do_build_teardown_and_reset`, the registry is intact, so
the kill events of a later call are those of the first. -/
theorem killEvents_do_reset (w : ClusterWorker) (t : Option Nat) :
    killEvents (do_build_teardown_and_reset w t).1 = killEvents w := by
  unfold killEvents
  rw [(do_reset_frame w t).1]

/-- A second `_do_build_teardown_and_reset` call is a no-op apart from
the unconditional executor kills: the coin is now absent or spent, so
the state is unchanged and no ProjectType teardown happens. -/
theorem do_reset_idem (w : ClusterWorker) (t t' : Option Nat) :
    do_build_teardown_and_reset (do_build_teardown_and_reset w t).1 t'
      = ((do_build_teardown_and_reset w t).1, killEvents w) := by
  obtain ⟨h1, h2, h3, h4, h5, h6, h7, h8, pt, cb, coin, h12, h13, h14⟩ := w
  rcases coin with _ | ⟨b⟩
  · rfl
  · rcases b with _ | _ <;> rcases pt with _ | p <;>
      simp [do_build_teardown_and_reset, killEvents, SingleUseCoin.spend]

/-- The event list of one `_do_build_teardown_and_reset` call is the
executor kills, optionally followed by the single ProjectType teardown
call. -/
theorem do_reset_events (w : ClusterWorker) (t : Option Nat) :
    (do_build_teardown_and_reset w t).2 = killEvents w
    ∨ (do_build_teardown_and_reset w t).2
        = killEvents w ++ [Event.projectTeardown t] := by
  unfold do_build_teardown_and_reset
  split
  · exact Or.inl rfl
  · dsimp only
    split
    · exact Or.inl rfl
    · split
      · exact Or.inl rfl
      · exact Or.inr rfl

/-- Executor kill events contain no ProjectType teardown call. -/
theorem killEvents_no_teardown (w : ClusterWorker) :
    (killEvents w).countP (fun ev => Event.isProjectTeardown ev) = 0 := by
  rw [List.countP_eq_zero]
  intro a ha
  rcases List.mem_map.mp ha with ⟨i, _, rfl⟩
  simp [Event.isProjectTeardown]

/-- Iterating `_do_build_teardown_and_reset` from a fixpoint state
yields that state and one batch of kill events per call. -/
theorem iterTeardown_fixpoint (ts : List (Option Nat)) (s : ClusterWorker)
    (hfix : ∀ t, do_build_teardown_and_reset s t = (s, killEvents s)) :
    iterTeardown ts s = (s, ts.map (fun _ => killEvents s)) := by
  induction ts with
  | nil => rfl
  | cons t ts ih => simp [iterTeardown, hfix t, ih]

/-- C2: `_do_build_teardown_and_reset` is idempotent per build: for any
`N ≥ 1` calls (one per entry of `t :: ts`), the worker state equals the
state after the first call alone, `project_type.teardown_build` is
called at most once across all calls, every call produces its own event
batch, and every call's batch starts with the unconditional kill of
every executor (the kills precede the coin-spend-gated part). -/
theorem teardown_reset_idempotent (w : ClusterWorker) (t : Option Nat)
    (ts : List (Option Nat)) :
    (iterTeardown (t :: ts) w).1 = (do_build_teardown_and_reset w t).1
    ∧ ((iterTeardown (t :: ts) w).2.map
        (fun evs => evs.countP (fun ev => Event.isProjectTeardown ev))).sum ≤ 1
    ∧ (iterTeardown (t :: ts) w).2.length = (t :: ts).length
    ∧ ∀ evs ∈ (iterTeardown (t :: ts) w).2, ∃ tail, evs = killEvents w ++ tail := by
  have hfix : ∀ t', do_build_teardown_and_reset
      (do_build_teardown_and_reset w t).1 t'
        = ((do_build_teardown_and_reset w t).1,
           killEvents (do_build_teardown_and_reset w t).1) := by
    intro t'
    rw [do_reset_idem w t t', killEvents_do_reset]
  have hiter : iterTeardown (t :: ts) w
      = ((do_build_teardown_and_reset w t).1,
         (do_build_teardown_and_reset w t).2
           :: ts.map (fun _ => killEvents (do_build_teardown_and_reset w t).1)) := by
    have hrest := iterTeardown_fixpoint ts (do_build_teardown_and_reset w t).1 hfix
    simp only [iterTeardown, hrest]
  rw [hiter]
  refine ⟨rfl, ?_, by simp, ?_⟩
  · have hone : (do_build_teardown_and_reset w t).2.countP
        (fun ev => Event.isProjectTeardown ev) ≤ 1 := by
      rcases do_reset_events w t with h | h <;> rw [h]
      · rw [killEvents_no_teardown]
        exact Nat.zero_le 1
      · rw [List.countP_append, killEvents_no_teardown]
        simp [Event.isProjectTeardown, List.countP_cons]
    have hzero : ∀ l ∈ ts.map
        (fun _ => killEvents (do_build_teardown_and_reset w t).1),
        l.countP (fun ev => Event.isProjectTeardown ev) = 0 := by
      intro l hl
      rcases List.mem_map.mp hl with ⟨_, _, rfl⟩
      rw [killEvents_do_reset, killEvents_no_teardown]
    simp only [List.map_cons, List.sum_cons, List.map_map]
    have : ((ts.map (fun _ => killEvents (do_build_teardown_and_reset w t).1)).map
        (fun evs => evs.countP (fun ev => Event.isProjectTeardown ev))).sum = 0 := by
      rw [List.sum_eq_zero]
      intro x hx
      rcases List.mem_map.mp hx with ⟨l, hl, rfl⟩
      exact hzero l hl
    rw [List.map_map] at this
    rw [this]
    simpa using hone
  · intro evs hevs
    rcases List.mem_cons.mp hevs with h | h
    · subst h
      rcases do_reset_events w t with h2 | h2 <;> rw [h2]
      · exact ⟨[], by simp⟩
      · exact ⟨[Event.projectTeardown t], rfl⟩
    · rcases List.mem_map.mp h with ⟨_, _, rfl⟩
      rw [killEvents_do_reset]
      exact ⟨[], by simp⟩

/-- Witness for C2 at a concrete input: two teardown calls on
`busyWorker` leave the same state as one, and call the ProjectType
teardown at most once. -/
theorem teardown_reset_idempotent_witness :
    (iterTeardown [some 30, none] busyWorker).1
      = (do_build_teardown_and_reset busyWorker (some 30)).1
    ∧ ((iterTeardown [some 30, none] busyWorker).2.map
        (fun evs => evs.countP (fun ev => Event.isProjectTeardown ev))).sum ≤ 1 :=
  ⟨(teardown_reset_idempotent busyWorker (some 30) [none]).1,
   (teardown_reset_idempotent busyWorker (some 30) [none]).2.1⟩

/-- The configure loop succeeds exactly when every executor's configure
call returns normally. -/
theorem configureAll_ok_iff (f : Nat → StepOutcome) (l : List Nat) :
    (configureAll f l).2 = StepOutcome.ok ↔ ∀ e ∈ l, f e = StepOutcome.ok := by
  induction l with
  | nil => simp [configureAll]
  | cons e rest ih =>
    cases hf : f e with
    | ok => simp [configureAll, hf, ih]
    | setupFailure => simp [configureAll, hf]
    | otherError => simp [configureAll, hf]

/-- When the configure loop succeeds it has configured every executor,
in order. -/
theorem configureAll_events_ok (f : Nat → StepOutcome) (l : List Nat)
    (h : (configureAll f l).2 = StepOutcome.ok) :
    (configureAll f l).1 = l.map Event.configureProjectType := by
  induction l with
  | nil => rfl
  | cons e rest ih =>
    cases hf : f e with
    | ok =>
      simp only [configureAll, hf] at h ⊢
      rw [List.map_cons]
      exact congrArg _ (ih h)
    | setupFailure => simp [configureAll, hf] at h
    | otherError => simp [configureAll, hf] at h

/-- The configure loop emits only configure events, never a manager
notification. -/
theorem configureAll_no_notify (f : Nat → StepOutcome) (l : List Nat)
    (s : WorkerState) : Event.notify s ∉ (configureAll f l).1 := by
  induction l with
  | nil => simp [configureAll]
  | cons e rest ih =>
    cases hf : f e with
    | ok =>
      simp only [configureAll, hf, List.mem_cons]
      rintro (h | h)
      · exact Event.noConfusion h
      · exact ih h
    | setupFailure => simp [configureAll, hf]
    | otherError => simp [configureAll, hf]

/-- C5: the async setup task notifies `SETUP_COMPLETED` exactly when
`fetch_project`, every per-executor `configure_project_type` call and
`run_job_config_setup` all return without raising (and then the
notification is the last event, after all the setup calls); whenever
the first raising step raises `SetupFailureError` the task instead
notifies `SETUP_FAILED`; the two notifications never both occur. -/
theorem setup_notifications (w : ClusterWorker) (i : Int) (ex : List Nat)
    (f : StepOutcome) (c : Nat → StepOutcome) (r : StepOutcome) :
    (Event.notify WorkerState.SETUP_COMPLETED ∈ (async_setup_build w i ex f c r).2
      ↔ f = StepOutcome.ok ∧ (∀ e ∈ ex, c e = StepOutcome.ok) ∧ r = StepOutcome.ok)
    ∧ (Event.notify WorkerState.SETUP_FAILED ∈ (async_setup_build w i ex f c r).2
      ↔ (f = StepOutcome.setupFailure
        ∨ (f = StepOutcome.ok ∧ (configureAll c ex).2 = StepOutcome.setupFailure)
        ∨ (f = StepOutcome.ok ∧ (configureAll c ex).2 = StepOutcome.ok
            ∧ r = StepOutcome.setupFailure)))
    ∧ ¬(Event.notify WorkerState.SETUP_COMPLETED ∈ (async_setup_build w i ex f c r).2
        ∧ Event.notify WorkerState.SETUP_FAILED ∈ (async_setup_build w i ex f c r).2)
    ∧ (f = StepOutcome.ok → (∀ e ∈ ex, c e = StepOutcome.ok) → r = StepOutcome.ok →
        (async_setup_build w i ex f c r).2
          = Event.fetchProject :: ex.map Event.configureProjectType
            ++ [Event.runJobConfigSetup, Event.notify WorkerState.SETUP_COMPLETED]) := by
  have hnc := configureAll_no_notify c ex WorkerState.SETUP_COMPLETED
  have hnf := configureAll_no_notify c ex WorkerState.SETUP_FAILED
  cases f <;> cases r <;> cases hcc : (configureAll c ex).2 <;>
    simp_all [async_setup_build, ← configureAll_ok_iff, configureAll_events_ok]

/-- Witness for C5 at a concrete input: with every step succeeding for
executors 0 and 1, `SETUP_COMPLETED` is sent, and only after the fetch,
both configures and the job-config setup. -/
theorem setup_notifications_witness :
    Event.notify WorkerState.SETUP_COMPLETED
      ∈ (async_setup_build busyWorker 0 [0, 1] StepOutcome.ok
          (fun _ => StepOutcome.ok) StepOutcome.ok).2
    ∧ (async_setup_build busyWorker 0 [0, 1] StepOutcome.ok
          (fun _ => StepOutcome.ok) StepOutcome.ok).2
      = Event.fetchProject :: [0, 1].map Event.configureProjectType
        ++ [Event.runJobConfigSetup, Event.notify WorkerState.SETUP_COMPLETED] :=
  ⟨(setup_notifications busyWorker 0 [0, 1] StepOutcome.ok
      (fun _ => StepOutcome.ok) StepOutcome.ok).1.mpr
        ⟨rfl, fun _ _ => rfl, rfl⟩,
   (setup_notifications busyWorker 0 [0, 1] StepOutcome.ok
      (fun _ => StepOutcome.ok) StepOutcome.ok).2.2.2 rfl (fun _ _ => rfl) rfl⟩

/-- `_do_build_teardown_and_reset` sends no manager notification. -/
theorem do_reset_no_notify (w : ClusterWorker) (t : Option Nat)
    (s : WorkerState) :
    Event.notify s ∉ (do_build_teardown_and_reset w t).2 := by
  rcases do_reset_events w t with h | h <;> rw [h] <;> simp [killEvents]

/-- The teardown waiter exits exactly at the first poll that observes a
full pool, sleeping one second after each of the `k` not-full polls
before it. -/
theorem pollUntilFull_spec (polls : List Bool) (sleeps : List Event)
    (h : pollUntilFull polls = some sleeps) :
    ∃ k, polls.get? k = some true ∧ (∀ j, j < k → polls.get? j = some false)
      ∧ sleeps = List.replicate k (Event.sleepSeconds 1) := by
  induction polls generalizing sleeps with
  | nil => simp [pollUntilFull] at h
  | cons b rest ih =>
    cases b with
    | true =>
      simp only [pollUntilFull, Option.some.injEq] at h
      exact ⟨0, rfl, fun j hj => absurd hj (Nat.not_lt_zero j), by simp [← h]⟩
    | false =>
      simp only [pollUntilFull, Option.map_eq_some'] at h
      rcases h with ⟨evs, hrest, hsl⟩
      rcases ih evs hrest with ⟨k, hk, hbefore, rfl⟩
      refine ⟨k + 1, hk, ?_, ?_⟩
      · intro j hj
        cases j with
        | zero => rfl
        | succ j' => exact hbefore j' (Nat.lt_of_succ_lt_succ hj)
      · rw [← hsl, List.replicate_succ]

/-- C6: whenever the async teardown task sends `IDLE`, the manager was
responsive, `_do_build_teardown_and_reset` had completed (its event
batch precedes the notification and contains no notification itself),
the pool had been observed full (poll `k` is `true` after `k` not-full
polls), and each not-full poll slept one second — so `IDLE` is sent
only after teardown completion and pool refill, at 1-second polling
granularity. -/
theorem idle_only_after_teardown_and_refill (w : ClusterWorker)
    (polls : List Bool) (responsive : Bool)
    (h : Event.notify WorkerState.IDLE ∈ (async_teardown_build w polls responsive).2) :
    responsive = true
    ∧ Event.notify WorkerState.IDLE ∉ (do_build_teardown_and_reset w none).2
    ∧ ∃ k, polls.get? k = some true ∧ (∀ j, j < k → polls.get? j = some false)
      ∧ (async_teardown_build w polls responsive).2
        = (do_build_teardown_and_reset w none).2
          ++ (List.replicate k (Event.sleepSeconds 1)
            ++ [Event.notify WorkerState.IDLE]) := by
  cases hp : pollUntilFull polls with
  | none =>
    exfalso
    simp only [async_teardown_build, hp] at h
    rcases List.mem_append.mp h with hm | hm
    · exact do_reset_no_notify w none _ hm
    · rcases List.mem_map.mp hm with ⟨_, _, hEq⟩
      exact Event.noConfusion hEq
  | some sleeps =>
    rcases pollUntilFull_spec polls sleeps hp with ⟨k, hk, hbefore, rfl⟩
    cases responsive with
    | false =>
      exfalso
      simp only [async_teardown_build, hp, send_manager_idle_notification,
        if_neg Bool.false_ne_true, List.append_nil] at h
      rcases List.mem_append.mp h with hm | hm
      · exact do_reset_no_notify w none _ hm
      · rcases List.eq_of_mem_replicate hm with hEq
        exact Event.noConfusion hEq
    | true =>
      refine ⟨rfl, do_reset_no_notify w none _, k, hk, hbefore, ?_⟩
      simp [async_teardown_build, hp, send_manager_idle_notification,
        List.append_assoc]

/-- Witness for C6 at a concrete input: tearing down `busyWorker`, with
the pool observed full at the second poll and a responsive manager,
sends `IDLE` — and the theorem's conclusion holds there. -/
theorem idle_only_after_teardown_and_refill_witness :
    Event.notify WorkerState.IDLE
      ∈ (async_teardown_build busyWorker [false, true] true).2
    ∧ (true = true
      ∧ Event.notify WorkerState.IDLE ∉ (do_build_teardown_and_reset busyWorker none).2
      ∧ ∃ k, [false, true].get? k = some true
        ∧ (∀ j, j < k → [false, true].get? j = some false)
        ∧ (async_teardown_build busyWorker [false, true] true).2
          = (do_build_teardown_and_reset busyWorker none).2
            ++ (List.replicate k (Event.sleepSeconds 1)
              ++ [Event.notify WorkerState.IDLE])) :=
  ⟨by decide,
   idle_only_after_teardown_and_refill busyWorker [false, true] true (by decide)⟩

/-- Running the heartbeat loop over a concatenation: the second part
runs only if the first part neither killed nor crashed. -/
theorem run_heartbeats_append (t c : Nat) (xs ys : List HbOutcome) :
    run_heartbeats t c (xs ++ ys)
      = match run_heartbeats t c xs with
        | .alive c' => run_heartbeats t c' ys
        | r => r := by
  induction xs generalizing c with
  | nil => rfl
  | cons o rest ih =>
    by_cases ho : o = HbOutcome.otherException
    · simp [run_heartbeats, ho]
    · simp only [List.cons_append, run_heartbeats, if_neg ho]
      cases hr : (run_heartbeat t c o).2 with
      | none => simp only [hr]; exact ih _
      | some code => simp only [hr]

/-- A run of `n` consecutive transport faults starting from counter `c`
with `c + n = t` kills the process with exit status 0. -/
theorem run_kill_block (t : Nat) :
    ∀ n c s, c + n = t → 1 ≤ n →
      run_heartbeats t c (List.replicate n HbOutcome.transportError ++ s)
        = HbRun.killed 0 := by
  intro n
  induction n with
  | zero => intro c s _ h1; exact absurd h1 (by decide)
  | succ m ih =>
    intro c s hsum _
    rw [List.replicate_succ, List.cons_append]
    by_cases hle : t ≤ c + 1
    · simp [run_heartbeats, run_heartbeat, hle, kill_exit_status]
    · have hm : 1 ≤ m := by omega
      simp only [run_heartbeats, run_heartbeat, if_neg hle]
      simp only [show (HbOutcome.transportError = HbOutcome.otherException) = False
        from by simp, if_false]
      exact ih (c + 1) s (by omega) hm

/-- A heartbeat run over outcomes without uncaught exceptions either
kills the process (exit 0) or stays alive. -/
theorem run_result_cases (t : Nat) :
    ∀ xs, HbOutcome.otherException ∉ xs →
      ∀ c, run_heartbeats t c xs = HbRun.killed 0
        ∨ ∃ c', run_heartbeats t c xs = HbRun.alive c' := by
  intro xs
  induction xs with
  | nil => intro _ c; exact Or.inr ⟨c, rfl⟩
  | cons o rest ih =>
    intro h c
    have hrest : HbOutcome.otherException ∉ rest :=
      fun hm => h (List.mem_cons_of_mem o hm)
    cases o with
    | otherException => exact absurd (List.mem_cons_self _ _) h
    | success =>
      have hred : run_heartbeats t c (HbOutcome.success :: rest)
          = run_heartbeats t 0 rest := by
        simp [run_heartbeats, run_heartbeat]
      rw [hred]
      exact ih hrest 0
    | transportError =>
      by_cases hle : t ≤ c + 1
      · left
        simp [run_heartbeats, run_heartbeat, hle, kill_exit_status]
      · have hred : run_heartbeats t c (HbOutcome.transportError :: rest)
            = run_heartbeats t (c + 1) rest := by
          simp [run_heartbeats, run_heartbeat, hle]
        rw [hred]
        exact ih hrest (c + 1)

/-- If a killed heartbeat run is observed, the counter reached the
threshold through consecutive transport faults: the outcome list splits
into a prefix (none of it an uncaught exception, empty or ending in a
success that zeroed the counter) followed by `threshold` consecutive
transport faults. -/
theorem run_killed_decomp (t : Nat) :
    ∀ xs c, c < t → run_heartbeats t c xs = HbRun.killed 0 →
      (∃ s, xs = List.replicate (t - c) HbOutcome.transportError ++ s)
      ∨ ∃ p s, xs = p ++ HbOutcome.success
            :: (List.replicate t HbOutcome.transportError ++ s)
          ∧ HbOutcome.otherException ∉ p := by
  intro xs
  induction xs with
  | nil => intro c hc h; exact absurd h (by simp [run_heartbeats])
  | cons o rest ih =>
    intro c hc h
    cases o with
    | otherException => exact absurd h (by simp [run_heartbeats])
    | success =>
      have h2 : run_heartbeats t 0 rest = HbRun.killed 0 := by
        have hred : run_heartbeats t c (HbOutcome.success :: rest)
            = run_heartbeats t 0 rest := by
          simp [run_heartbeats, run_heartbeat]
        rw [hred] at h
        exact h
      rcases ih 0 (Nat.lt_of_le_of_lt (Nat.zero_le c) hc) h2 with
        ⟨s, hs⟩ | ⟨p, s, hps, hnp⟩
      · right
        refine ⟨[], s, ?_, by simp⟩
        simp only [Nat.sub_zero] at hs
        simp [hs]
      · right
        exact ⟨HbOutcome.success :: p, s, by simp [hps], by simp [hnp]⟩
    | transportError =>
      by_cases hle : t ≤ c + 1
      · left
        have ht : t - c = 1 := by omega
        exact ⟨rest, by simp [ht]⟩
      · have h2 : run_heartbeats t (c + 1) rest = HbRun.killed 0 := by
          have hred : run_heartbeats t c (HbOutcome.transportError :: rest)
              = run_heartbeats t (c + 1) rest := by
            simp [run_heartbeats, run_heartbeat, hle]
          rw [hred] at h
          exact h
        rcases ih (c + 1) (by omega) h2 with ⟨s, hs⟩ | ⟨p, s, hps, hnp⟩
        · left
          refine ⟨s, ?_⟩
          have ht : t - c = (t - (c + 1)) + 1 := by omega
          rw [ht, List.replicate_succ, List.cons_append, hs]
        · right
          exact ⟨HbOutcome.transportError :: p, s, by simp [hps], by simp [hnp]⟩

/-- Conversely, any outcome list containing `threshold` consecutive
transport faults starting at counter zero (at the list's start or right
after a success), with no earlier uncaught exception, kills the
process. -/
theorem run_killed_of_decomp (t : Nat) (ht : 1 ≤ t) (xs : List HbOutcome)
    (h : (∃ s, xs = List.replicate t HbOutcome.transportError ++ s)
      ∨ ∃ p s, xs = p ++ HbOutcome.success
            :: (List.replicate t HbOutcome.transportError ++ s)
          ∧ HbOutcome.otherException ∉ p) :
    run_heartbeats t 0 xs = HbRun.killed 0 := by
  rcases h with ⟨s, rfl⟩ | ⟨p, s, rfl, hnp⟩
  · exact run_kill_block t t 0 s (by omega) ht
  · rw [run_heartbeats_append]
    rcases run_result_cases t p hnp 0 with hk | ⟨c', ha⟩
    · rw [hk]
    · rw [ha]
      show run_heartbeats t c'
          (HbOutcome.success :: (List.replicate t HbOutcome.transportError ++ s))
        = HbRun.killed 0
      have hred : run_heartbeats t c'
          (HbOutcome.success :: (List.replicate t HbOutcome.transportError ++ s))
          = run_heartbeats t 0 (List.replicate t HbOutcome.transportError ++ s) := by
        simp [run_heartbeats, run_heartbeat]
      rw [hred]
      exact run_kill_block t t 0 s (by omega) ht

/-- C7: on each heartbeat tick the consecutive-failure counter resets
to 0 on success, increments exactly on a connection/timeout fault and on
no other outcome, and the tick kills exactly when the incremented
counter reaches the threshold; `kill()` exits with status 0; and over
any outcome sequence starting from counter 0, the process is killed iff
the sequence contains `threshold` consecutive transport faults reached
with no earlier uncaught exception and a freshly-zeroed counter. -/
theorem heartbeat_counter_and_kill (threshold c : Nat) (outs : List HbOutcome)
    (ht : 1 ≤ threshold) :
    (run_heartbeat threshold c HbOutcome.success).1 = 0
    ∧ (run_heartbeat threshold c HbOutcome.transportError).1 = c + 1
    ∧ (run_heartbeat threshold c HbOutcome.otherException).1 = c
    ∧ (run_heartbeat threshold c HbOutcome.success).2 = none
    ∧ (run_heartbeat threshold c HbOutcome.otherException).2 = none
    ∧ ((run_heartbeat threshold c HbOutcome.transportError).2
        = some kill_exit_status ↔ threshold ≤ c + 1)
    ∧ kill_exit_status = 0
    ∧ (run_heartbeats threshold 0 outs = HbRun.killed kill_exit_status
      ↔ ((∃ s, outs = List.replicate threshold HbOutcome.transportError ++ s)
        ∨ ∃ p s, outs = p ++ HbOutcome.success
              :: (List.replicate threshold HbOutcome.transportError ++ s)
            ∧ HbOutcome.otherException ∉ p)) := by
  refine ⟨rfl, ?_, rfl, rfl, rfl, ?_, rfl, ?_⟩
  · simp only [run_heartbeat]
    split <;> rfl
  · constructor
    · intro h
      simp only [run_heartbeat] at h
      split at h
      · rename_i hcond
        exact hcond
      · exact absurd h (by simp)
    · intro hcond
      simp [run_heartbeat, hcond]
  · constructor
    · intro h
      exact run_killed_decomp threshold outs 0 (by omega) h
    · intro hd
      exact run_killed_of_decomp threshold ht outs hd

/-- Witness for C7 at a concrete input: with threshold 2, two
consecutive transport faults from a zero counter kill the process with
exit status 0. -/
theorem heartbeat_counter_and_kill_witness :
    1 ≤ 2
    ∧ run_heartbeats 2 0 [HbOutcome.transportError, HbOutcome.transportError]
      = HbRun.killed kill_exit_status :=
  ⟨by decide,
   ((heartbeat_counter_and_kill 2 0
      [HbOutcome.transportError, HbOutcome.transportError]
      (by decide)).2.2.2.2.2.2.2).mpr (Or.inl ⟨[], by decide⟩)⟩

/-- No public operation adds to, removes from, or re-keys the executor
registry. -/
theorem applyOp_executors (w : ClusterWorker) (op : WorkerOp) :
    (applyOp w op).executors_by_id = w.executors_by_id := by
  cases op with
  | connect url rid => rfl
  | setup b pt => rfl
  | asyncSetup i ex f c r => rfl
  | startSubjob b s =>
    simp only [applyOp]
    by_cases hb : some b ≠ w.current_build_id
    · simp [start_working_on_subjob, hb]
    · cases hie : w.idle_executors with
      | nil => simp [start_working_on_subjob, hb, hie]
      | cons e rest => simp [start_working_on_subjob, hb, hie, execute_subjob]
  | teardown b polls resp =>
    simp only [applyOp, teardown_build_full]
    cases teardown_build w b
    · rfl
    · dsimp only
      rw [async_teardown_state]
      exact (do_reset_frame w none).1
  | teardownReset t => exact (do_reset_frame w t).1
  | disconnect resp =>
    simp only [applyOp, disconnect_from_manager]
    split <;> rfl
  | heartbeat o => rfl

/-- The executor registry is invariant under any sequence of public
operations. -/
theorem foldl_applyOp_executors (ops : List WorkerOp) :
    ∀ w, (ops.foldl applyOp w).executors_by_id = w.executors_by_id := by
  induction ops with
  | nil => intro w; rfl
  | cons op rest ih =>
    intro w
    rw [List.foldl_cons, ih (applyOp w op), applyOp_executors]

/-- C10: a freshly constructed worker with `n` executors holds exactly
the dense ids `0 .. n-1` in its registry, all initially in the idle
pool (which is therefore full); after any sequence of public operations
the registry is still exactly `0 .. n-1`, so the kill loop of a
teardown at any point iterates exactly the executors created at
construction. -/
theorem executors_fixed_forever (port : Nat) (host : String) (n t : Nat)
    (ops : List WorkerOp) :
    (ClusterWorker.init port host n t).executors_by_id = List.range n
    ∧ (ClusterWorker.init port host n t).idle_executors = List.range n
    ∧ (ClusterWorker.init port host n t).idle_executors.length
        = (ClusterWorker.init port host n t).num_executors
    ∧ (ops.foldl applyOp (ClusterWorker.init port host n t)).executors_by_id
        = List.range n
    ∧ killEvents (ops.foldl applyOp (ClusterWorker.init port host n t))
        = (List.range n).map Event.executorKill := by
  refine ⟨rfl, rfl, List.length_range n, ?_, ?_⟩
  · rw [foldl_applyOp_executors]
    rfl
  · unfold killEvents
    rw [foldl_applyOp_executors]
    rfl

end ClusterRunner
